import Mathlib

/-!
Verification of the MMDVM protocol engine (package mmdvm of pd0mz/go-dv).

The Go source is shallowly embedded below: bytes are `Nat` (values 0..255 on
the wire), byte buffers are `List Nat`, the `m.callback` map of capacity-1
channels is an association list from command id to a `Slot` (the channel
buffer: `none` = empty, `some frame` = one buffered frame), and the select
between channel delivery and the timeout is made explicit by an `arrival`
parameter describing whether a matching frame is handed over within the
timeout window.  Go runtime panics from out-of-range indexing are modelled
by `Option`/dedicated `panicked` outcomes.
-/

set_option maxRecDepth 8192

namespace MMDVM

/-! ## Protocol constants (source lines 14-42) -/

def GetVersion : Nat := 0x00
def GetStatus : Nat := 0x01
def SetConfig : Nat := 0x02
def SetMode : Nat := 0x03
def CalibrationData : Nat := 0x08
def DStarHeader : Nat := 0x10
def DStarData : Nat := 0x11
def DStarLost : Nat := 0x12
def DStarEOT : Nat := 0x13
def DMRData : Nat := 0x18
def DMRLost : Nat := 0x19
def SetCACHShortLCData : Nat := 0x1a
def DMRTransmitStart : Nat := 0x1b
def SystemFusionData : Nat := 0x20
def SystemFusionLost : Nat := 0x21
def ACK : Nat := 0x70
def NAK : Nat := 0x7f
def FrameStart : Nat := 0xe0

/-- NAK reasons (source lines 36-42): `iota + 1`. -/
def InvalidCommand : Nat := 1
def WrongMode : Nat := 2
def CommandTooLong : Nat := 3
def DataIncorrect : Nat := 4
def NotEnoughBufferSpace : Nat := 5

/-! ## Errors (source lines 68-82, 192-204, 216-233, 277-282, 397-398)

One constructor per distinct error value the engine can produce; transport
failures from the serial port are `readFailed`/`writeFailed`. -/

inductive GoErr where
  | timeout
  | invalidCommand
  | wrongMode
  | commandTooLong
  | dataIncorrect
  | notEnoughBufferSpace
  | nakUnknownReason (r : Nat)
  | unexpectedResponse (got want : Nat)
  | invalidPacketLength (l : Nat)
  | statusLength (l : Nat)
  | syncFailed
  | unsupportedVersion (v : Nat)
  | readFailed
  | writeFailed
  | handlerFailed (code : Nat)
  deriving DecidableEq, Repr

/-- `nakError` map (source lines 75-81). -/
def nakError (r : Nat) : Option GoErr :=
  if r = InvalidCommand then some GoErr.invalidCommand
  else if r = WrongMode then some GoErr.wrongMode
  else if r = CommandTooLong then some GoErr.commandTooLong
  else if r = DataIncorrect then some GoErr.dataIncorrect
  else if r = NotEnoughBufferSpace then some GoErr.notEnoughBufferSpace
  else none

/-! ## The callback registry (`m.callback : map[uint8]chan []byte`)

Each value is a buffered channel of capacity 1; `Slot` is its buffer:
`none` means the buffer is empty, `some frame` means one frame is buffered
and a further send on the channel would block. -/

abbrev Slot := Option (List Nat)

abbrev Registry := List (Nat × Slot)

def lookupReg : Registry → Nat → Option Slot
  | [], _ => none
  | (k, s) :: rest, key => if k = key then some s else lookupReg rest key

/-- Go map assignment `m[key] = s`: replace the binding if present, else add. -/
def setReg : Registry → Nat → Slot → Registry
  | [], key, s => [(key, s)]
  | (k, t) :: rest, key, s =>
    if k = key then (key, s) :: rest else (k, t) :: setReg rest key s

/-- Go `delete(m, key)`. -/
def removeReg : Registry → Nat → Registry
  | [], _ => []
  | (k, t) :: rest, key =>
    if k = key then removeReg rest key else (k, t) :: removeReg rest key

theorem lookupReg_setReg_self (reg : Registry) (key : Nat) (s : Slot) :
    lookupReg (setReg reg key s) key = some s := by
  induction reg with
  | nil => simp [setReg, lookupReg]
  | cons p rest ih =>
    obtain ⟨k, t⟩ := p
    by_cases hk : k = key
    · simp [setReg, lookupReg, hk]
    · simp [setReg, lookupReg, hk, ih]

theorem lookupReg_removeReg_self (reg : Registry) (key : Nat) :
    lookupReg (removeReg reg key) key = none := by
  induction reg with
  | nil => simp [removeReg, lookupReg]
  | cons p rest ih =>
    obtain ⟨k, t⟩ := p
    by_cases hk : k = key
    · simp [removeReg, hk, ih]
    · simp [removeReg, lookupReg, hk, ih]

/-- The registration performed at source line 303:
`m.callback[command] = make(chan []byte, 1)` — a plain map assignment of a
fresh empty channel.  It is total: there is no failure path. -/
def registerCallback (reg : Registry) (key : Nat) : Registry :=
  setReg reg key none

/-! ## Frame codec (`send`, source lines 284-290)

`var size = uint8(len(body) + 2)` truncates modulo 256; the frame is then
`[FrameStart, size] ++ body` and the only possible error is the port write
error. -/

def encodeFrame (body : List Nat) : List Nat :=
  FrameStart :: ((body.length + 2) % 256) :: body

/-- `send` (source lines 284-290): returns the frame handed to
`m.port.Write` together with the write outcome (`writeRes` models the answer
of the transport; the function itself introduces no error). -/
def send (body : List Nat) (writeRes : Option GoErr) : List Nat × Option GoErr :=
  (encodeFrame body, writeRes)

/-! ## Request engine: `sendAndWait` (source lines 292-321) -/

/-- Correlation key computed by the `switch body[0]` at source lines 295-300.
Go indexing out of range is a panic, modelled as `none`. -/
def corrKey (body : List Nat) : Option Nat :=
  match body[0]? with
  | none => none
  | some b0 => if b0 = ACK ∨ b0 = NAK then body[1]? else some b0

/-- Observable events of one `sendAndWait` call, in program order. -/
inductive Ev where
  | registered (k : Nat)
  | sendAttempt (frame : List Nat)
  | unregistered (k : Nat)
  deriving DecidableEq, Repr

/-- `sendAndWait` (source lines 292-321).  `sendRes` is the outcome of the
port write inside `send`; `arrival` says whether the dispatch loop delivers
a matching frame before the timeout fires.  Returns `none` on a Go panic
(out-of-range index while computing the correlation key), otherwise the
final registry (after the deferred `delete`), the event trace, and the
result of the call. -/
def sendAndWait (reg : Registry) (body : List Nat) (sendRes : Option GoErr)
    (arrival : Option (List Nat)) :
    Option (Registry × List Ev × Except GoErr (List Nat)) :=
  match corrKey body with
  | none => none
  | some command =>
    let reg1 := registerCallback reg command
    let tr := [Ev.registered command, Ev.sendAttempt (encodeFrame body),
               Ev.unregistered command]
    let reg2 := removeReg reg1 command
    match sendRes with
    | some e => some (reg2, tr, Except.error e)
    | none =>
      match arrival with
      | some frame => some (reg2, tr, Except.ok frame)
      | none => some (reg2, tr, Except.error GoErr.timeout)

/-! ## `sendAndWaitForACK` (source lines 323-342)

After `sendAndWait` succeeds, the reply frame is inspected: `data[2]` is the
command id, `data[4]` the NAK reason.  Out-of-range indexing panics. -/

inductive AckRes where
  | ok
  | err (e : GoErr)
  | panicked
  deriving DecidableEq, Repr

/-- The reply inspection of `sendAndWaitForACK` (source lines 329-341). -/
def inspectACKReply (data : List Nat) : AckRes :=
  match data[2]? with
  | none => AckRes.panicked
  | some c =>
    if c = ACK then AckRes.ok
    else if c = NAK then
      match data[4]? with
      | none => AckRes.panicked
      | some r =>
        match nakError r with
        | some e => AckRes.err e
        | none => AckRes.err (GoErr.nakUnknownReason r)
    else AckRes.err (GoErr.unexpectedResponse c ACK)

/-! ## `Status` (source lines 392-410) -/

structure Status where
  Modes : Nat
  State : Nat
  Flags : Nat
  DStarBufferSize : Nat
  DMRTS1BufferSize : Nat
  DMRTS2BufferSize : Nat
  SystemFusionBufferSize : Nat
  deriving DecidableEq, Repr

/-- `Status` (source lines 392-410): `sendAndWait([]byte{GetStatus})`, then
reject any reply whose full frame is not exactly 10 bytes, else read the
seven fields from frame bytes 3..9. -/
def statusCall (reg : Registry) (sendRes : Option GoErr)
    (arrival : Option (List Nat)) : Option (Registry × Except GoErr Status) :=
  match sendAndWait reg [GetStatus] sendRes arrival with
  | none => none
  | some (reg2, _, Except.error e) => some (reg2, Except.error e)
  | some (reg2, _, Except.ok data) =>
    if data.length ≠ 10 then some (reg2, Except.error (GoErr.statusLength data.length))
    else some (reg2, Except.ok
      { Modes := data.getD 3 0
        State := data.getD 4 0
        Flags := data.getD 5 0
        DStarBufferSize := data.getD 6 0
        DMRTS1BufferSize := data.getD 7 0
        DMRTS2BufferSize := data.getD 8 0
        SystemFusionBufferSize := data.getD 9 0 })

/-! ## Synchronizer scan (source lines 177-189)

After the first 3-byte read fills the window `(w0, w1, w2)`, the loop
`for data[0] != FrameStart && data[2] != GetVersion` slides the window one
byte at a time over `stream`.  `none` models a read failure once the
modelled stream is exhausted.  The result is the anchored window and the
bytes left unread. -/

def syncScanGo : Nat → Nat → Nat → List Nat →
    Option ((Nat × Nat × Nat) × List Nat)
  | w0, w1, w2, [] =>
    if w0 ≠ FrameStart ∧ w2 ≠ GetVersion then none
    else some ((w0, w1, w2), [])
  | w0, w1, w2, b :: rest =>
    if w0 ≠ FrameStart ∧ w2 ≠ GetVersion then syncScanGo w1 w2 b rest
    else some ((w0, w1, w2), b :: rest)

/-- Modelled from the spec (section 4.2 step 3): the same sliding-window scan
with the OR exit condition the spec states as the intended behaviour (slide
while the start marker byte is wrong OR the command id byte is wrong).  The
source function `Run` uses AND at line 183; this definition exists to exhibit the
divergence. -/
def syncScanSpec : Nat → Nat → Nat → List Nat →
    Option ((Nat × Nat × Nat) × List Nat)
  | w0, w1, w2, [] =>
    if w0 ≠ FrameStart ∨ w2 ≠ GetVersion then none
    else some ((w0, w1, w2), [])
  | w0, w1, w2, b :: rest =>
    if w0 ≠ FrameStart ∨ w2 ≠ GetVersion then syncScanSpec w1 w2 b rest
    else some ((w0, w1, w2), b :: rest)

/-! ## Dispatch loop iteration (source lines 209-272)

One pass of the `for m.running` loop: read a 2-byte header from the front of
`stream`, validate it, read the rest of the frame, classify and route.
`handlers` models `m.Callback`: `none` means no callback function is
registered for that id (the map holds `nil`); a registered handler is a
function from the full frame to an optional error, per the call
`m.Callback[data[2]](m, data)` whose error return is fatal to the loop. -/

def isStreamedId (c : Nat) : Bool :=
  c = DStarHeader || c = DStarData || c = DMRData || c = SystemFusionData

inductive IterOut where
  | fatal (e : GoErr)
  | panicked
  | blocked
  | cont (reg : Registry) (logged : Bool)
  deriving DecidableEq, Repr

structure IterRes where
  out : IterOut
  bytesRead : Nat
  deriving DecidableEq, Repr

/-- The channel send at lines 237-243 / 264-269: look up `m.callback[key]`;
no entry means log-and-continue; an entry with an empty buffer accepts the
frame; an entry whose one-slot buffer is already full blocks the sender. -/
inductive DeliverRes where
  | noWaiter
  | delivered (reg : Registry)
  | blocked
  deriving DecidableEq, Repr

def deliver (reg : Registry) (key : Nat) (frame : List Nat) : DeliverRes :=
  match lookupReg reg key with
  | none => DeliverRes.noWaiter
  | some none => DeliverRes.delivered (setReg reg key (some frame))
  | some (some _) => DeliverRes.blocked

def dispatchIter (stream : List Nat) (reg : Registry)
    (handlers : Nat → Option (List Nat → Option GoErr)) : IterRes :=
  match stream[0]?, stream[1]? with
  | some b0, some b1 =>
    if b0 ≠ FrameStart then
      ⟨IterOut.fatal (GoErr.unexpectedResponse b0 FrameStart), 2⟩
    else if b1 < 2 then
      ⟨IterOut.fatal (GoErr.invalidPacketLength b1), 2⟩
    else if stream.length < b1 then
      ⟨IterOut.fatal GoErr.readFailed, 2⟩
    else
      let data := stream.take b1
      match data[2]? with
      | none => ⟨IterOut.panicked, b1⟩
      | some c =>
        if c = ACK ∨ c = NAK then
          if data.length < 4 then
            ⟨IterOut.fatal (GoErr.invalidPacketLength b1), b1⟩
          else
            match deliver reg (data.getD 3 0) data with
            | DeliverRes.noWaiter => ⟨IterOut.cont reg true, b1⟩
            | DeliverRes.delivered reg2 => ⟨IterOut.cont reg2 false, b1⟩
            | DeliverRes.blocked => ⟨IterOut.blocked, b1⟩
        else if isStreamedId c then
          match handlers c with
          | none => ⟨IterOut.cont reg true, b1⟩
          | some h =>
            match h data with
            | some e => ⟨IterOut.fatal e, b1⟩
            | none => ⟨IterOut.cont reg false, b1⟩
        else
          if data.length < 3 then
            ⟨IterOut.fatal (GoErr.invalidPacketLength b1), b1⟩
          else
            match deliver reg c data with
            | DeliverRes.noWaiter => ⟨IterOut.cont reg true, b1⟩
            | DeliverRes.delivered reg2 => ⟨IterOut.cont reg2 false, b1⟩
            | DeliverRes.blocked => ⟨IterOut.blocked, b1⟩
  | _, _ => ⟨IterOut.fatal GoErr.readFailed, 2⟩

/-- Iterated dispatch over a finite modelled input, counting the frames that
were logged-and-skipped; stops cleanly when the input (or fuel) runs out. -/
inductive RunRes where
  | err (e : GoErr)
  | panicked
  | blocked
  | drained (reg : Registry) (logCount : Nat)
  deriving DecidableEq, Repr

def runDispatch : Nat → List Nat → Registry →
    (Nat → Option (List Nat → Option GoErr)) → RunRes
  | 0, _, reg, _ => RunRes.drained reg 0
  | _ + 1, [], reg, _ => RunRes.drained reg 0
  | fuel + 1, b :: rest, reg, handlers =>
    let r := dispatchIter (b :: rest) reg handlers
    match r.out with
    | IterOut.fatal e => RunRes.err e
    | IterOut.panicked => RunRes.panicked
    | IterOut.blocked => RunRes.blocked
    | IterOut.cont reg2 logged =>
      match runDispatch fuel ((b :: rest).drop r.bytesRead) reg2 handlers with
      | RunRes.drained reg3 n =>
        RunRes.drained reg3 (n + if logged then 1 else 0)
      | other => other

/-! ## Claim theorems -/

/-- C1: the synchronizer is meant to keep sliding the 3-byte window while the
start marker byte is not `FrameStart` OR the command id byte is not
`GetVersion`, anchoring only when both match.  The source loop at line 183
uses AND, so it anchors as soon as EITHER byte matches: starting from the
garbage window `(0x13, 0x55, 0x00)` (command id byte happens to be 0x00),
the code anchors immediately on a window whose start marker is not
`FrameStart`, while the scan described by the claim slides on and anchors at
the genuine Get Version reply `E0 04 00` further down the stream. -/
theorem sync_scan_anchor_bug :
    syncScanGo 0x13 0x55 0x00 [0xe0, 0x04, 0x00, 0x01] =
      some ((0x13, 0x55, 0x00), [0xe0, 0x04, 0x00, 0x01]) ∧
    (0x13 : Nat) ≠ FrameStart ∧
    syncScanSpec 0x13 0x55 0x00 [0xe0, 0x04, 0x00, 0x01] =
      some ((FrameStart, 0x04, GetVersion), [0x01]) := by
  refine ⟨by decide, by decide, by decide⟩

/-- C5 counterexample: `send` never reports an oversize body.  For a body of
254 bytes (`len(body)+2 = 256 > 255`) the source computes
`uint8(len(body)+2) = 0` and writes the frame `E0 00 ...` with no error,
whereas the claim demands a length error instead of a write. -/
theorem send_oversize_counterexample :
    send (List.replicate 254 0) none =
      (FrameStart :: 0 :: List.replicate 254 0, none) ∧
    255 < (List.replicate 254 0 : List Nat).length + 2 := by
  refine ⟨by decide, by decide⟩

/-- C5 amended: frame encoding produces `[0xE0, (len(body)+2) mod 256]`
followed by the body; it never fails on length — the only error is the port
write outcome — and when `len(body)+2` exceeds 255 the length byte silently
wraps modulo 256, so it no longer equals `len(body)+2`. -/
theorem send_length_truncation (body : List Nat) (writeRes : Option GoErr) :
    (send body writeRes).2 = writeRes ∧
    (body.length + 2 ≤ 255 →
      (send body writeRes).1 = FrameStart :: (body.length + 2) :: body) ∧
    (255 < body.length + 2 →
      (send body writeRes).1 =
        FrameStart :: ((body.length + 2) % 256) :: body ∧
      (body.length + 2) % 256 ≠ body.length + 2) := by
  refine ⟨rfl, ?_, ?_⟩
  · intro h
    simp [send, encodeFrame, Nat.mod_eq_of_lt (by omega : body.length + 2 < 256)]
  · intro h
    refine ⟨rfl, ?_⟩
    have hlt : (body.length + 2) % 256 < 256 :=
      Nat.mod_lt _ (by norm_num)
    omega

/-- C5 amended witness: instantiation at a 1-byte body and at the oversize
254-byte body. -/
theorem send_length_truncation_witness :
    (send [0x03] none).1 = FrameStart :: 0x03 :: [0x03] ∧
    ((List.replicate 254 0 : List Nat).length + 2) % 256 ≠
      (List.replicate 254 0 : List Nat).length + 2 := by
  refine ⟨(send_length_truncation [0x03] none).2.1 (by decide),
         ((send_length_truncation (List.replicate 254 0) none).2.2 (by decide)).2⟩

/-- C6 counterexample: registration is the plain map assignment at source
line 303, which silently replaces an existing slot (here one that still
buffers an undelivered frame) and never fails; a full `sendAndWait` call for
the same key proceeds all the way to its timeout result instead of failing
at registration. -/
theorem register_silent_replace_counterexample :
    registerCallback [(GetStatus, some [0xe0, 0x04, 0x70, 0x01])] GetStatus =
      [(GetStatus, (none : Slot))] ∧
    (∃ tr, sendAndWait [(GetStatus, some [0xe0, 0x04, 0x70, 0x01])] [GetStatus]
        none none = some ([], tr, Except.error GoErr.timeout)) := by
  exact ⟨rfl, ⟨_, rfl⟩⟩

/-- C6 amended: registering a slot for a command identifier always succeeds;
when a slot already exists it is silently replaced by a fresh empty slot
(any buffered frame in the old slot is discarded), with no signalled
error. -/
theorem register_always_succeeds_replacing (reg : Registry) (key : Nat) :
    lookupReg (registerCallback reg key) key = some none :=
  lookupReg_setReg_self reg key none

/-- C6 amended witness. -/
theorem register_always_succeeds_replacing_witness :
    lookupReg (registerCallback [(GetStatus, some [0x05])] GetStatus) GetStatus =
      some none :=
  register_always_succeeds_replacing [(GetStatus, some [0x05])] GetStatus

/-- C8 counterexample: delivering a decoded ACK frame to a registered slot
whose capacity-1 buffer already holds an undelivered frame is a Go channel
send on a full buffered channel: it blocks the dispatch loop, contradicting
the claim that delivery completes without waiting regardless of slot
state. -/
theorem deliver_blocks_counterexample :
    dispatchIter [0xe0, 0x04, 0x70, 0x10]
      [(0x10, some [0xe0, 0x04, 0x70, 0x10])] (fun _ => none) =
      ⟨IterOut.blocked, 4⟩ := by
  decide

/-- C8 amended: a delivery attempt from the dispatch loop completes without
waiting whenever no slot is registered for the key (log and continue) or the
registered slot has an empty buffer (the frame is buffered); but when the
registered slot already buffers a frame, the channel send blocks the
dispatch loop. -/
theorem deliver_blocking_characterisation (reg : Registry) (k : Nat)
    (prev : List Nat) :
    (lookupReg reg k = none →
      dispatchIter [0xe0, 0x04, 0x70, k] reg (fun _ => none) =
        ⟨IterOut.cont reg true, 4⟩) ∧
    (lookupReg reg k = some none →
      dispatchIter [0xe0, 0x04, 0x70, k] reg (fun _ => none) =
        ⟨IterOut.cont (setReg reg k (some [0xe0, 0x04, 0x70, k])) false, 4⟩) ∧
    (lookupReg reg k = some (some prev) →
      dispatchIter [0xe0, 0x04, 0x70, k] reg (fun _ => none) =
        ⟨IterOut.blocked, 4⟩) := by
  refine ⟨?_, ?_, ?_⟩ <;> intro h <;>
    simp [dispatchIter, deliver, h, ACK, NAK, FrameStart, isStreamedId]

/-- C8 amended witness. -/
theorem deliver_blocking_characterisation_witness :
    dispatchIter [0xe0, 0x04, 0x70, 0x01] [(0x01, some [0x05])] (fun _ => none) =
      ⟨IterOut.blocked, 4⟩ ∧
    dispatchIter [0xe0, 0x04, 0x70, 0x01] [(0x01, none)] (fun _ => none) =
      ⟨IterOut.cont (setReg [(0x01, none)] 0x01 (some [0xe0, 0x04, 0x70, 0x01]))
        false, 4⟩ := by
  exact ⟨(deliver_blocking_characterisation [(0x01, some [0x05])] 0x01 [0x05]).2.2 rfl,
         (deliver_blocking_characterisation [(0x01, none)] 0x01 []).2.1 rfl⟩

/-- C2: `sendAndWait` keys the pending-request entry by `body[1]` when
`body[0]` is ACK or NAK and by `body[0]` otherwise; the entry is created
before the transmit attempt, is gone from the registry on every return path
(transmit error, delivery, timeout), and the call returns the timeout error
when no matching frame is delivered in time. -/
theorem sendAndWait_key_register_cleanup_timeout (reg : Registry)
    (body : List Nat) (sendRes : Option GoErr) (arrival : Option (List Nat))
    (key : Nat) (hk : corrKey body = some key) :
    (∀ b0, body[0]? = some b0 → b0 ≠ ACK → b0 ≠ NAK → key = b0) ∧
    ((body[0]? = some ACK ∨ body[0]? = some NAK) → body[1]? = some key) ∧
    (∃ regF tr res,
      sendAndWait reg body sendRes arrival = some (regF, tr, res) ∧
      lookupReg regF key = none ∧
      tr.take 2 = [Ev.registered key, Ev.sendAttempt (encodeFrame body)] ∧
      tr.getLast? = some (Ev.unregistered key) ∧
      (sendRes = none → arrival = none → res = Except.error GoErr.timeout) ∧
      (∀ f, sendRes = none → arrival = some f → res = Except.ok f) ∧
      (∀ e, sendRes = some e → res = Except.error e)) := by
  refine ⟨?_, ?_, ?_⟩
  · intro b0 h0 hA hN
    simp [corrKey, h0, hA, hN] at hk
    exact hk.symm
  · intro hor
    rcases hor with h0 | h0 <;> simp [corrKey, h0, ACK, NAK] at hk <;> exact hk
  · rcases sendRes with _ | e <;> rcases arrival with _ | f
    · refine ⟨removeReg (registerCallback reg key) key,
        [Ev.registered key, Ev.sendAttempt (encodeFrame body),
         Ev.unregistered key],
        Except.error GoErr.timeout, by simp [sendAndWait, hk],
        lookupReg_removeReg_self _ _, rfl, rfl, fun _ _ => rfl, ?_, ?_⟩
      · intro g _ h
        exact Option.noConfusion h
      · intro e h
        exact Option.noConfusion h
    · refine ⟨removeReg (registerCallback reg key) key,
        [Ev.registered key, Ev.sendAttempt (encodeFrame body),
         Ev.unregistered key],
        Except.ok f, by simp [sendAndWait, hk],
        lookupReg_removeReg_self _ _, rfl, rfl, ?_, ?_, ?_⟩
      · intro _ h
        exact Option.noConfusion h
      · intro g _ h
        exact congrArg Except.ok (Option.some.inj h)
      · intro e h
        exact Option.noConfusion h
    · refine ⟨removeReg (registerCallback reg key) key,
        [Ev.registered key, Ev.sendAttempt (encodeFrame body),
         Ev.unregistered key],
        Except.error e, by simp [sendAndWait, hk],
        lookupReg_removeReg_self _ _, rfl, rfl, ?_, ?_, ?_⟩
      · intro h _
        exact Option.noConfusion h
      · intro g h _
        exact Option.noConfusion h
      · intro g h
        exact congrArg Except.error (Option.some.inj h)
    · refine ⟨removeReg (registerCallback reg key) key,
        [Ev.registered key, Ev.sendAttempt (encodeFrame body),
         Ev.unregistered key],
        Except.error e, by simp [sendAndWait, hk],
        lookupReg_removeReg_self _ _, rfl, rfl, ?_, ?_, ?_⟩
      · intro h _
        exact Option.noConfusion h
      · intro g h _
        exact Option.noConfusion h
      · intro g h
        exact congrArg Except.error (Option.some.inj h)

/-- C2 witness: a GetStatus body with no reply times out and leaves the key
unregistered. -/
theorem sendAndWait_key_register_cleanup_timeout_witness :
    ∃ regF tr res,
      sendAndWait [] [0x01] none none = some (regF, tr, res) ∧
      lookupReg regF 0x01 = none ∧ res = Except.error GoErr.timeout := by
  obtain ⟨-, -, regF, tr, res, h1, h2, -, -, h5, -, -⟩ :=
    sendAndWait_key_register_cleanup_timeout [] [0x01] none none 0x01 rfl
  exact ⟨regF, tr, res, h1, h2, h5 rfl rfl⟩

/-- C3 counterexample: `Status` succeeds on a reply whose full frame is 10
bytes, which leaves only 7 bytes after the command id byte at frame index 2
— not the 9 bytes after the command id (total 12 frame bytes) the claim
describes. -/
theorem status_seven_payload_bytes_counterexample :
    statusCall [] none (some [0xe0, 0x0a, 0x01, 1, 2, 3, 4, 5, 6, 7]) =
      some ([], Except.ok ⟨1, 2, 3, 4, 5, 6, 7⟩) ∧
    ([0xe0, 0x0a, 0x01, 1, 2, 3, 4, 5, 6, 7] : List Nat).length = 10 ∧
    ([0xe0, 0x0a, 0x01, 1, 2, 3, 4, 5, 6, 7] : List Nat).length - 3 ≠ 9 := by
  refine ⟨rfl, by decide, by decide⟩

/-- C3 amended: `Status` succeeds exactly when the full reply frame
(including start marker, length byte and command id byte) is 10 bytes, i.e.
7 bytes follow the command id; the seven fields are taken positionally from
frame bytes 3 through 9, and any other full-frame length fails with the
shape error carrying that length. -/
theorem status_shape (reg : Registry) (data : List Nat) :
    (data.length = 10 →
      statusCall reg none (some data) =
        some (removeReg (registerCallback reg GetStatus) GetStatus,
          Except.ok
            { Modes := data.getD 3 0
              State := data.getD 4 0
              Flags := data.getD 5 0
              DStarBufferSize := data.getD 6 0
              DMRTS1BufferSize := data.getD 7 0
              DMRTS2BufferSize := data.getD 8 0
              SystemFusionBufferSize := data.getD 9 0 })) ∧
    (data.length ≠ 10 →
      statusCall reg none (some data) =
        some (removeReg (registerCallback reg GetStatus) GetStatus,
          Except.error (GoErr.statusLength data.length))) := by
  constructor <;> intro h <;>
    simp [statusCall, sendAndWait, corrKey, registerCallback, GetStatus,
      ACK, NAK, h]

/-- C3 amended witness: a 10-byte reply parses positionally; a 3-byte reply
fails with the shape error. -/
theorem status_shape_witness :
    statusCall [] none (some [0xe0, 0x0a, 0x01, 9, 8, 7, 6, 5, 4, 3]) =
      some (removeReg (registerCallback [] GetStatus) GetStatus,
        Except.ok ⟨9, 8, 7, 6, 5, 4, 3⟩) ∧
    statusCall [] none (some [0xe0, 0x03, 0x01]) =
      some (removeReg (registerCallback [] GetStatus) GetStatus,
        Except.error (GoErr.statusLength 3)) := by
  refine ⟨?_, ?_⟩
  · have h := (status_shape [] [0xe0, 0x0a, 0x01, 9, 8, 7, 6, 5, 4, 3]).1 (by decide)
    simpa using h
  · have h := (status_shape [] [0xe0, 0x03, 0x01]).2 (by decide)
    simpa using h

/-- C4: the reply inspection of `sendAndWaitForACK` maps command id ACK to
success; command id NAK with reason byte 1, 2, 3, 4 or 5 to the
invalid-command, wrong-mode, command-too-long, data-incorrect and
not-enough-buffer-space errors respectively and any other reason byte to the
unknown-reason error; and any other command id to the unexpected-reply
error naming the received id and the expected id ACK. -/
theorem ackReply_mapping (data : List Nat) (c : Nat)
    (hc : data[2]? = some c) :
    (c = ACK → inspectACKReply data = AckRes.ok) ∧
    (c = NAK → ∀ r, data[4]? = some r →
      inspectACKReply data = AckRes.err
        (if r = 1 then GoErr.invalidCommand
         else if r = 2 then GoErr.wrongMode
         else if r = 3 then GoErr.commandTooLong
         else if r = 4 then GoErr.dataIncorrect
         else if r = 5 then GoErr.notEnoughBufferSpace
         else GoErr.nakUnknownReason r)) ∧
    (c ≠ ACK → c ≠ NAK →
      inspectACKReply data = AckRes.err (GoErr.unexpectedResponse c ACK)) := by
  refine ⟨?_, ?_, ?_⟩
  · intro h
    subst h
    simp [inspectACKReply, hc]
  · intro h r hr
    subst h
    simp only [inspectACKReply, hc, hr, nakError, InvalidCommand, WrongMode,
      CommandTooLong, DataIncorrect, NotEnoughBufferSpace, NAK, ACK]
    norm_num
    split_ifs <;> simp
  · intro hA hN
    simp [inspectACKReply, hc, hA, hN]

/-- C4 witness: a NAK reply with reason 4 yields the data-incorrect error. -/
theorem ackReply_mapping_witness :
    inspectACKReply [0xe0, 0x05, 0x7f, 0x10, 0x04] =
      AckRes.err GoErr.dataIncorrect := by
  have h := (ackReply_mapping [0xe0, 0x05, 0x7f, 0x10, 0x04] NAK
    (by decide)).2.1 rfl 0x04 (by decide)
  simpa using h

/-- C7: in the running dispatch loop, a 2-byte header whose first byte is
not the start marker terminates the loop with the unexpected-byte error, and
a header whose length byte is below 2 terminates it with the length error;
in both cases only the 2 header bytes were read, no payload. -/
theorem dispatch_header_validation (stream : List Nat) (reg : Registry)
    (handlers : Nat → Option (List Nat → Option GoErr)) (b0 b1 : Nat)
    (h0 : stream[0]? = some b0) (h1 : stream[1]? = some b1) :
    (b0 ≠ FrameStart →
      dispatchIter stream reg handlers =
        ⟨IterOut.fatal (GoErr.unexpectedResponse b0 FrameStart), 2⟩) ∧
    (b0 = FrameStart → b1 < 2 →
      dispatchIter stream reg handlers =
        ⟨IterOut.fatal (GoErr.invalidPacketLength b1), 2⟩) := by
  constructor
  · intro hb
    simp [dispatchIter, h0, h1, hb]
  · intro hb hlen
    subst hb
    simp [dispatchIter, h0, h1, hlen]

/-- C7 witness: a wrong start marker and a too-small length byte. -/
theorem dispatch_header_validation_witness :
    dispatchIter [0x12, 0x05] [] (fun _ => none) =
      ⟨IterOut.fatal (GoErr.unexpectedResponse 0x12 FrameStart), 2⟩ ∧
    dispatchIter [0xe0, 0x01] [] (fun _ => none) =
      ⟨IterOut.fatal (GoErr.invalidPacketLength 0x01), 2⟩ := by
  exact ⟨(dispatch_header_validation [0x12, 0x05] [] (fun _ => none)
            0x12 0x05 rfl rfl).1 (by decide),
         (dispatch_header_validation [0xe0, 0x01] [] (fun _ => none)
            0xe0 0x01 rfl rfl).2 (by decide) (by decide)⟩

/-- C9: a streamed frame (D-Star header, D-Star data, DMR data, System
Fusion data) with no registered handler is logged and the loop continues
unchanged and without error; a registered handler is invoked synchronously
on the full frame, a handler error is fatal to the loop, and a concrete
two-frame run shows the loop processing the frame after an unhandled DMR
data frame. -/
theorem dispatch_streamed_routing (stream : List Nat) (reg : Registry)
    (handlers : Nat → Option (List Nat → Option GoErr)) (b1 c : Nat)
    (h0 : stream[0]? = some FrameStart) (h1 : stream[1]? = some b1)
    (hb : 3 ≤ b1) (hlen : b1 ≤ stream.length)
    (hc : (stream.take b1)[2]? = some c) (hs : isStreamedId c = true) :
    (handlers c = none →
      dispatchIter stream reg handlers = ⟨IterOut.cont reg true, b1⟩) ∧
    (∀ h, handlers c = some h → h (stream.take b1) = none →
      dispatchIter stream reg handlers = ⟨IterOut.cont reg false, b1⟩) ∧
    (∀ h e, handlers c = some h → h (stream.take b1) = some e →
      dispatchIter stream reg handlers = ⟨IterOut.fatal e, b1⟩) ∧
    runDispatch 2 [0xe0, 0x03, 0x18, 0xe0, 0x04, 0x70, 0x01] [(0x01, none)]
      (fun _ => none) =
      RunRes.drained [(0x01, some [0xe0, 0x04, 0x70, 0x01])] 1 := by
  have hcAN : ¬(c = ACK ∨ c = NAK) := by
    have hs4 : c = 16 ∨ c = 17 ∨ c = 24 ∨ c = 32 := by
      simpa [isStreamedId, DStarHeader, DStarData, DMRData, SystemFusionData,
        or_assoc] using hs
    rcases hs4 with h | h | h | h <;> subst h <;> decide
  have hb2 : ¬ b1 < 2 := by omega
  have hlen2 : ¬ stream.length < b1 := Nat.not_lt.mpr hlen
  refine ⟨?_, ?_, ?_, by decide⟩
  · intro hh
    simp [dispatchIter, h0, h1, hb2, hlen2, hc, hcAN, hs, hh]
  · intro hfun hh hres
    simp [dispatchIter, h0, h1, hb2, hlen2, hc, hcAN, hs, hh, hres]
  · intro hfun e hh hres
    simp [dispatchIter, h0, h1, hb2, hlen2, hc, hcAN, hs, hh, hres]

/-- C9 witness: an unhandled minimal DMR data frame is logged and the loop
continues with the registry unchanged. -/
theorem dispatch_streamed_routing_witness :
    dispatchIter [0xe0, 0x03, 0x18] [] (fun _ => none) =
      ⟨IterOut.cont [] true, 3⟩ := by
  exact (dispatch_streamed_routing [0xe0, 0x03, 0x18] [] (fun _ => none)
    0x03 0x18 (by decide) rfl (by decide) (by decide) (by decide)
    (by decide)).1 rfl

/-- C10: the request engine indexes byte buffers unguarded: the correlation
key computation panics on an empty body and on a 1-byte ACK or NAK body, is
well defined for 1-byte bodies with any other first byte and for all bodies
of length at least 2; the NAK-reason read at frame index 4 panics on a
4-byte NAK frame, and the dispatch loop accepts and delivers exactly such a
4-byte frame (its ACK/NAK length check requires only 4 bytes). -/
theorem unguarded_indexing :
    corrKey [] = none ∧
    corrKey [ACK] = none ∧
    corrKey [NAK] = none ∧
    (∀ body b0, body[0]? = some b0 → b0 ≠ ACK → b0 ≠ NAK →
      corrKey body = some b0) ∧
    (∀ body : List Nat, 2 ≤ body.length → (corrKey body).isSome = true) ∧
    inspectACKReply [0xe0, 0x04, 0x7f, 0x10] = AckRes.panicked ∧
    dispatchIter [0xe0, 0x04, 0x7f, 0x10] [(0x10, (none : Slot))]
      (fun _ => none) =
      ⟨IterOut.cont [(0x10, some [0xe0, 0x04, 0x7f, 0x10])] false, 4⟩ := by
  refine ⟨rfl, by decide, by decide, ?_, ?_, by decide, by decide⟩
  · intro body b0 h0 hA hN
    simp [corrKey, h0, hA, hN]
  · intro body hlen
    match body, hlen with
    | b0 :: b1 :: rest, _ =>
      by_cases h : b0 = ACK ∨ b0 = NAK <;> simp [corrKey, h]

/-- C10 witness: a 2-byte non-ACK body has the well-defined key `body[0]`. -/
theorem unguarded_indexing_witness :
    corrKey [0x03, 0x02] = some 0x03 :=
  unguarded_indexing.2.2.2.1 [0x03, 0x02] 0x03 rfl (by decide) (by decide)

end MMDVM
